import Mathlib

/-! The device API gateway of infinimesh (`cmd/apiserver/devices.go`).

A shallow embedding of the five handlers of `deviceAPI` (Create, Update, Get,
List, Delete).  Each handler is a function from the two downstream clients, the
inbound context and the request to a `Run`: how the handler ended (a returned
`(response, err)` pair, or a Go run-time panic) together with the downstream
calls it made, in order.  Logging is modelled only through the expressions the
log statements evaluate, since those can panic.
-/

namespace Infinimesh

/-! ## Go and gRPC primitives -/

/-- The gRPC status codes of `google.golang.org/grpc/codes`. -/
inductive Code
  | OK | Canceled | Unknown | InvalidArgument | DeadlineExceeded | NotFound
  | AlreadyExists | PermissionDenied | ResourceExhausted | FailedPrecondition
  | Aborted | OutOfRange | Unimplemented | Internal | Unavailable | DataLoss
  | Unauthenticated
  deriving DecidableEq, Repr

/-- The text `codes.Code.String` gives a code. -/
def Code.String : Code → String
  | .OK => "OK"
  | .Canceled => "Canceled"
  | .Unknown => "Unknown"
  | .InvalidArgument => "InvalidArgument"
  | .DeadlineExceeded => "DeadlineExceeded"
  | .NotFound => "NotFound"
  | .AlreadyExists => "AlreadyExists"
  | .PermissionDenied => "PermissionDenied"
  | .ResourceExhausted => "ResourceExhausted"
  | .FailedPrecondition => "FailedPrecondition"
  | .Aborted => "Aborted"
  | .OutOfRange => "OutOfRange"
  | .Unimplemented => "Unimplemented"
  | .Internal => "Internal"
  | .Unavailable => "Unavailable"
  | .DataLoss => "DataLoss"
  | .Unauthenticated => "Unauthenticated"

/-- A non-nil Go `error` value: a gRPC status error (a code and a description),
or an error of any other type, known only by its text. -/
inductive GoError
  | status (c : Code) (desc : String)
  | plain (text : String)
  deriving DecidableEq, Repr

/-- The method `err.Error()`. -/
def GoError.Error : GoError → String
  | .status c desc => "rpc error: code = " ++ c.String ++ " desc = " ++ desc
  | .plain text => text

/-- The function `status.Code(err)`: the classification a caller sees; `none` is the nil
error. -/
def statusCode : Option GoError → Code
  | none => .OK
  | some (.status c _) => c
  | some (.plain _) => .Unknown

/-- The function `status.Error(c, msg)`: a status error, nil for the code OK. -/
def statusError (c : Code) (msg : String) : Option GoError :=
  if c = .OK then none else some (.status c msg)

/-- A non-nil `interface{}` value as a context stores it: a string, or a value of
another dynamic type (told apart by a tag). -/
inductive Any
  | str (s : String)
  | other (tag : Nat)
  deriving DecidableEq, Repr

/-- A `context.Context`, as far as the gateway reads and writes it: the values
attached with `context.WithValue` under string keys (the innermost first) and the
outgoing gRPC metadata. -/
structure Context where
  values : List (String × Any)
  outgoing : List (String × String)
  deriving DecidableEq, Repr

/-- The method `ctx.Value(key)`; `none` is the nil interface. -/
def Context.Value (ctx : Context) (key : String) : Option Any :=
  ctx.values.lookup key

/-- The type assertion `x.(string)` in its one-result form: `none` is the run-time
panic Go raises when `x` is nil or not a string. -/
def assertString : Option Any → Option String
  | some (.str s) => some s
  | _ => none

/-- The type assertion `v, ok := x.(string)` in its two-result form. -/
def assertStringOk : Option Any → String × Bool
  | some (.str s) => (s, true)
  | _ => ("", false)

/-- The function `metadata.AppendToOutgoingContext(ctx, k, v)`. -/
def AppendToOutgoingContext (ctx : Context) (k v : String) : Context :=
  { ctx with outgoing := ctx.outgoing ++ [(k, v)] }

/-- What a Go call of type `(*T, error)` returns: a pointer, possibly nil, and an
error, possibly nil. -/
abbrev GoResult (α : Type) := Option α × Option GoError

/-! ## Messages -/

namespace nodepb

/-- Modelled from the spec: the enumeration `nodepb.Action` is declared in generated code
outside the sources; the spec gives it the values READ and WRITE, the two the gateway
passes. -/
inductive Action
  | READ | WRITE
  deriving DecidableEq, Repr

/-- Modelled from the spec: the type of the `Decision` field is declared outside the
sources; the gateway reads its boolean verdict as `Decision.Value` and through the
getter `GetValue`. -/
structure BoolValue where
  Value : Bool
  deriving DecidableEq, Repr

/-- The nil-safe getter `(*BoolValue).GetValue`. -/
def BoolValue.GetValue : Option BoolValue → Bool
  | some b => b.Value
  | none => false

/-- Modelled from the spec: the message `nodepb.IsRootRequest` is declared in generated
code outside the sources; `Account` is the field the gateway sets. -/
structure IsRootRequest where
  Account : String
  deriving DecidableEq, Repr

/-- Modelled from the spec: the message `nodepb.IsRootResponse` is declared in generated
code outside the sources; `IsRoot` is the boolean the gateway tests. -/
structure IsRootResponse where
  IsRoot : Bool
  deriving DecidableEq, Repr

/-- Modelled from the spec: the message `nodepb.IsAuthorizedRequest` is declared in
generated code outside the sources; the fields are those the gateway sets. -/
structure IsAuthorizedRequest where
  Node : String
  Account : String
  Action : Action
  deriving DecidableEq, Repr

/-- Modelled from the spec: the message `nodepb.IsAuthorizedResponse` is declared in
generated code outside the sources; `Decision` is a pointer field, nil when the message
carries no decision. -/
structure IsAuthorizedResponse where
  Decision : Option BoolValue
  deriving DecidableEq, Repr

/-- The nil-safe getter `(*IsAuthorizedResponse).GetDecision`. -/
def IsAuthorizedResponse.GetDecision : Option IsAuthorizedResponse → Option BoolValue
  | some r => r.Decision
  | none => none

/-- Modelled from the spec: the message `nodepb.IsAuthorizedNamespaceRequest` is declared
in generated code outside the sources; the fields are those the gateway sets. -/
structure IsAuthorizedNamespaceRequest where
  Namespaceid : String
  Account : String
  Action : Action
  deriving DecidableEq, Repr

/-- Modelled from the spec: the response message of `IsAuthorizedNamespace` is declared
in generated code outside the sources; `Decision` is a pointer field, nil when the
message carries no decision. -/
structure IsAuthorizedNamespaceResponse where
  Decision : Option BoolValue
  deriving DecidableEq, Repr

/-- The nil-safe getter `(*IsAuthorizedNamespaceResponse).GetDecision`. -/
def IsAuthorizedNamespaceResponse.GetDecision :
    Option IsAuthorizedNamespaceResponse → Option BoolValue
  | some r => r.Decision
  | none => none

/-- Modelled from the spec: the client interface `nodepb.AccountServiceClient` is
declared in generated code outside the sources; these are the three methods the gateway
calls, each returning a response pointer and an error. -/
structure AccountServiceClient where
  IsRoot : Context → IsRootRequest → GoResult IsRootResponse
  IsAuthorized : Context → IsAuthorizedRequest → GoResult IsAuthorizedResponse
  IsAuthorizedNamespace :
    Context → IsAuthorizedNamespaceRequest → GoResult IsAuthorizedNamespaceResponse

end nodepb

namespace apipb

/-- Modelled from the spec: the message `apipb.ListDevicesRequest` is declared in generated
code outside the sources; `Namespace` is the field the gateway reads. -/
structure ListDevicesRequest where
  Namespace : String
  deriving DecidableEq, Repr

end apipb

namespace registrypb

/-- Modelled from the spec: the message `registrypb.GetRequest` is declared in generated
code outside the sources; `Id`, the device reference, is the field the gateway reads. -/
structure GetRequest where
  Id : String
  deriving DecidableEq, Repr

/-- Modelled from the spec: the message `registrypb.DeleteRequest` is declared in generated
code outside the sources; `Id`, the device reference, is the field the gateway reads. -/
structure DeleteRequest where
  Id : String
  deriving DecidableEq, Repr

/-- Modelled from the spec: the message `registrypb.ListDevicesRequest` is declared in
generated code outside the sources; the gateway builds it from a namespace and, for the
account-scoped listing, an account (the empty string is Go's zero value). -/
structure ListDevicesRequest where
  Namespace : String
  Account : String
  deriving DecidableEq, Repr

/-- Modelled from the spec: the registry messages the gateway forwards or returns without
reading a field of them are declared in generated code outside the sources; the gateway
is parametric in them. -/
structure Messages where
  CreateRequest : Type
  CreateResponse : Type
  UpdateRequest : Type
  UpdateResponse : Type
  GetResponse : Type
  ListResponse : Type
  DeleteResponse : Type

/-- Modelled from the spec: the client interface `registrypb.DevicesClient` is declared in
generated code outside the sources; these are the six methods the gateway calls, each
returning a response pointer and an error. -/
structure DevicesClient (M : Messages) where
  Create : Context → M.CreateRequest → GoResult M.CreateResponse
  Update : Context → M.UpdateRequest → GoResult M.UpdateResponse
  Get : Context → GetRequest → GoResult M.GetResponse
  List : Context → ListDevicesRequest → GoResult M.ListResponse
  ListForAccount : Context → ListDevicesRequest → GoResult M.ListResponse
  Delete : Context → DeleteRequest → GoResult M.DeleteResponse

end registrypb

open nodepb registrypb

/-! ## Runs of a handler -/

/-- A downstream call a handler made, with the context and the request it passed. -/
inductive Call (M : Messages)
  | IsRoot (ctx : Context) (req : IsRootRequest)
  | IsAuthorized (ctx : Context) (req : IsAuthorizedRequest)
  | IsAuthorizedNamespace (ctx : Context) (req : IsAuthorizedNamespaceRequest)
  | Create (ctx : Context) (req : M.CreateRequest)
  | Update (ctx : Context) (req : M.UpdateRequest)
  | Get (ctx : Context) (req : GetRequest)
  | List (ctx : Context) (req : registrypb.ListDevicesRequest)
  | ListForAccount (ctx : Context) (req : registrypb.ListDevicesRequest)
  | Delete (ctx : Context) (req : DeleteRequest)

/-- Whether a call went to the Device Registry. -/
def Call.isRegistry {M : Messages} : Call M → Bool
  | .IsRoot _ _ => false
  | .IsAuthorized _ _ => false
  | .IsAuthorizedNamespace _ _ => false
  | _ => true

/-- The context a call was made with. -/
def Call.ctx {M : Messages} : Call M → Context
  | .IsRoot c _ => c
  | .IsAuthorized c _ => c
  | .IsAuthorizedNamespace c _ => c
  | .Create c _ => c
  | .Update c _ => c
  | .Get c _ => c
  | .List c _ => c
  | .ListForAccount c _ => c
  | .Delete c _ => c

/-- How a handler ended: a run-time panic, or the pair it returned. -/
inductive Outcome (α : Type)
  | panic
  | ret (response : Option α) (err : Option GoError)

/-- A run of a handler: how it ended and the downstream calls it made, in order. -/
structure Run (M : Messages) (α : Type) where
  outcome : Outcome α
  calls : List (Call M)

/-- The calls of a run that went to the Device Registry. -/
def Run.registryCalls {M : Messages} {α : Type} (r : Run M α) : List (Call M) :=
  r.calls.filter Call.isRegistry

/-- The calls of a run that went to the authorization oracle. -/
def Run.oracleCalls {M : Messages} {α : Type} (r : Run M α) : List (Call M) :=
  r.calls.filter (fun c => !c.isRegistry)

/-! ## The gateway -/

/-- The struct `deviceAPI`. -/
structure deviceAPI (M : Messages) where
  client : DevicesClient M
  accountClient : AccountServiceClient

variable {M : Messages}

/-- The handler `deviceAPI.Create`. -/
def deviceAPI.Create (d : deviceAPI M) (ctx : Context) (request : M.CreateRequest) :
    Run M M.CreateResponse :=
  -- log.Info(..., zap.String("Requestor ID", ctx.Value("account_id").(string)))
  match assertString (ctx.Value "account_id") with
  | none => ⟨.panic, []⟩
  | some _ =>
    -- ctx = metadata.AppendToOutgoingContext(ctx, "requestorid", ctx.Value("account_id").(string))
    match assertString (ctx.Value "account_id") with
    | none => ⟨.panic, []⟩
    | some id =>
      let ctx2 := AppendToOutgoingContext ctx "requestorid" id
      -- res, err := d.client.Create(ctx, request)
      match d.client.Create ctx2 request with
      | (_, some err) => ⟨.ret none (statusError .Internal err.Error), [.Create ctx2 request]⟩
      | (res, none) => ⟨.ret res none, [.Create ctx2 request]⟩

/-- The handler `deviceAPI.Update`. -/
def deviceAPI.Update (d : deviceAPI M) (ctx : Context) (request : M.UpdateRequest) :
    Run M M.UpdateResponse :=
  -- log.Info(..., zap.String("Requestor ID", ctx.Value("account_id").(string)))
  match assertString (ctx.Value "account_id") with
  | none => ⟨.panic, []⟩
  | some _ =>
    -- ctx = metadata.AppendToOutgoingContext(ctx, "requestorid", ctx.Value("account_id").(string))
    match assertString (ctx.Value "account_id") with
    | none => ⟨.panic, []⟩
    | some id =>
      let ctx2 := AppendToOutgoingContext ctx "requestorid" id
      -- res, err := d.client.Update(ctx, request)
      match d.client.Update ctx2 request with
      | (_, some err) => ⟨.ret none (statusError .Internal err.Error), [.Update ctx2 request]⟩
      | (res, none) => ⟨.ret res none, [.Update ctx2 request]⟩

/-- The handler `deviceAPI.Get`. -/
def deviceAPI.Get (d : deviceAPI M) (ctx : Context) (request : GetRequest) :
    Run M M.GetResponse :=
  -- log.Info(..., zap.String("Requestor ID", ctx.Value("account_id").(string)))
  match assertString (ctx.Value "account_id") with
  | none => ⟨.panic, []⟩
  | some _ =>
    -- account, ok := ctx.Value("account_id").(string)
    match assertStringOk (ctx.Value "account_id") with
    | (_, false) =>
      ⟨.ret none (statusError .Unauthenticated "The account is not authenticated."), []⟩
    | (account, true) =>
      let q : IsAuthorizedRequest := ⟨request.Id, account, .READ⟩
      -- resp, err := d.accountClient.IsAuthorized(ctx, ...)
      match d.accountClient.IsAuthorized ctx q with
      | (_, some _) =>
        ⟨.ret none (statusError .PermissionDenied "Could not get permission to list devices."),
          [.IsAuthorized ctx q]⟩
      | (resp, none) =>
        -- fmt.Println("decision", resp.Decision.Value): two pointer dereferences
        match resp with
        | none => ⟨.panic, [.IsAuthorized ctx q]⟩
        | some r =>
          match r.Decision with
          | none => ⟨.panic, [.IsAuthorized ctx q]⟩
          | some _ =>
            if !(BoolValue.GetValue (IsAuthorizedResponse.GetDecision resp)) then
              ⟨.ret none (statusError .PermissionDenied
                  "The account does not have permission to get device list."),
                [.IsAuthorized ctx q]⟩
            else
              -- return d.client.Get(ctx, request)
              let res := d.client.Get ctx request
              ⟨.ret res.1 res.2, [.IsAuthorized ctx q, .Get ctx request]⟩

/-- The handler `deviceAPI.List`. -/
def deviceAPI.List (d : deviceAPI M) (ctx : Context) (request : apipb.ListDevicesRequest) :
    Run M M.ListResponse :=
  -- log.Info(..., zap.String("Requestor ID", ctx.Value("account_id").(string)))
  match assertString (ctx.Value "account_id") with
  | none => ⟨.panic, []⟩
  | some _ =>
    -- account, ok := ctx.Value("account_id").(string)
    match assertStringOk (ctx.Value "account_id") with
    | (_, false) =>
      ⟨.ret none (statusError .Unauthenticated "The account is not authenticated."), []⟩
    | (account, true) =>
      let q1 : IsRootRequest := ⟨account⟩
      -- isRootResp, err := d.accountClient.IsRoot(ctx, ...)
      match d.accountClient.IsRoot ctx q1 with
      | (_, some err) => ⟨.ret none (some err), [.IsRoot ctx q1]⟩
      -- isRootResp.IsRoot dereferences the response
      | (none, none) => ⟨.panic, [.IsRoot ctx q1]⟩
      | (some isRootResp, none) =>
        if isRootResp.IsRoot then
          let rq : registrypb.ListDevicesRequest := ⟨request.Namespace, ""⟩
          -- return d.client.List(ctx, ...)
          let res := d.client.List ctx rq
          ⟨.ret res.1 res.2, [.IsRoot ctx q1, .List ctx rq]⟩
        else
          let q2 : IsAuthorizedNamespaceRequest := ⟨request.Namespace, account, .READ⟩
          -- resp, err := d.accountClient.IsAuthorizedNamespace(ctx, ...)
          match d.accountClient.IsAuthorizedNamespace ctx q2 with
          | (_, some _) =>
            ⟨.ret none (statusError .PermissionDenied "Could not get permission to list device."),
              [.IsRoot ctx q1, .IsAuthorizedNamespace ctx q2]⟩
          | (resp, none) =>
            if !(BoolValue.GetValue (IsAuthorizedNamespaceResponse.GetDecision resp)) then
              ⟨.ret none (statusError .PermissionDenied
                  "The account does not have permission to list device."),
                [.IsRoot ctx q1, .IsAuthorizedNamespace ctx q2]⟩
            else
              let rq : registrypb.ListDevicesRequest := ⟨request.Namespace, account⟩
              -- list, err := d.client.ListForAccount(ctx, ...); return list, err
              let res := d.client.ListForAccount ctx rq
              ⟨.ret res.1 res.2,
                [.IsRoot ctx q1, .IsAuthorizedNamespace ctx q2, .ListForAccount ctx rq]⟩

/-- The handler `deviceAPI.Delete`. -/
def deviceAPI.Delete (d : deviceAPI M) (ctx : Context) (request : DeleteRequest) :
    Run M M.DeleteResponse :=
  -- log.Info(..., zap.String("Requestor ID", ctx.Value("account_id").(string)))
  match assertString (ctx.Value "account_id") with
  | none => ⟨.panic, []⟩
  | some _ =>
    -- account, ok := ctx.Value("account_id").(string)
    match assertStringOk (ctx.Value "account_id") with
    | (_, false) =>
      ⟨.ret none (statusError .Unauthenticated "The account is not authenticated."), []⟩
    | (account, true) =>
      let q : IsAuthorizedRequest := ⟨request.Id, account, .WRITE⟩
      -- resp, err := d.accountClient.IsAuthorized(ctx, ...)
      match d.accountClient.IsAuthorized ctx q with
      | (_, some _) =>
        ⟨.ret none (statusError .PermissionDenied "Could not get permission to list devices."),
          [.IsAuthorized ctx q]⟩
      | (resp, none) =>
        -- fmt.Println("decision", resp.Decision.Value): two pointer dereferences
        match resp with
        | none => ⟨.panic, [.IsAuthorized ctx q]⟩
        | some r =>
          match r.Decision with
          | none => ⟨.panic, [.IsAuthorized ctx q]⟩
          | some _ =>
            if !(BoolValue.GetValue (IsAuthorizedResponse.GetDecision resp)) then
              ⟨.ret none (statusError .PermissionDenied
                  "The account does not have permission to delete the device."),
                [.IsAuthorized ctx q]⟩
            else
              -- return d.client.Delete(ctx, request)
              let res := d.client.Delete ctx request
              ⟨.ret res.1 res.2, [.IsAuthorized ctx q, .Delete ctx request]⟩

/-! ## Observations on runs -/

/-- The classification of the error a handler returned: `status.Code` of it; `none` when
the handler panicked instead of returning. -/
def Outcome.code {α : Type} : Outcome α → Option Code
  | .panic => none
  | .ret _ err => some (statusCode err)

/-- Whether an oracle call, as the oracle of `d` answers it, grants `account` the
`action` on `resource`: an `IsRoot` query about the account answered true, or a
permission query for exactly this account, resource and action answered with a true
decision. -/
def grants (d : deviceAPI M) (account resource : String) (action : Action) : Call M → Bool
  | .IsRoot ctx q =>
    decide (q.Account = account) &&
      (match d.accountClient.IsRoot ctx q with
       | (some r, none) => r.IsRoot
       | _ => false)
  | .IsAuthorized ctx q =>
    decide (q = ⟨resource, account, action⟩) &&
      (match d.accountClient.IsAuthorized ctx q with
       | (some r, none) => BoolValue.GetValue r.Decision
       | _ => false)
  | .IsAuthorizedNamespace ctx q =>
    decide (q = ⟨resource, account, action⟩) &&
      (match d.accountClient.IsAuthorizedNamespace ctx q with
       | (some r, none) => BoolValue.GetValue r.Decision
       | _ => false)
  | _ => false

/-- The authorization invariant on a sequence of calls: every Device Registry call in it
comes after an oracle call that grants; `granted` says whether one was already seen. -/
def authorizedBeforeDelegation (d : deviceAPI M) (account resource : String) (action : Action) :
    Bool → List (Call M) → Bool
  | _, [] => true
  | granted, c :: rest =>
    (!c.isRegistry || granted) &&
      authorizedBeforeDelegation d account resource action
        (granted || grants d account resource action c) rest

/-- The account the two-result type assertion on `ctx.Value("account_id")` yields. -/
def caller (ctx : Context) : String :=
  (assertStringOk (ctx.Value "account_id")).1

/-- Whether a call carries `account` under the key `requestorid` in the outgoing metadata
of its context. -/
def carriesRequestor (account : String) (c : Call M) : Bool :=
  c.ctx.outgoing.contains ("requestorid", account)

/-! ## Concrete collaborators -/

/-- The uninspected registry messages, taken to be numbers. -/
@[reducible] def natMessages : Messages :=
  ⟨Nat, Nat, Nat, Nat, Nat, Nat, Nat⟩

/-- An inbound context whose upstream layer stored the account `account`. -/
def ctxOf (account : String) : Context :=
  ⟨[("account_id", .str account)], []⟩

/-- An inbound context with no account identifier. -/
def ctxAnonymous : Context :=
  ⟨[], []⟩

/-- An inbound context whose `account_id` value is not a string. -/
def ctxWrongShape : Context :=
  ⟨[("account_id", .other 0)], []⟩

/-- An oracle that answers every `IsRoot` query with `root` and every permission query
with the decision field `decision`. -/
def oracleConst (root : Bool) (decision : Option BoolValue) : AccountServiceClient where
  IsRoot := fun _ _ => (some ⟨root⟩, none)
  IsAuthorized := fun _ _ => (some ⟨decision⟩, none)
  IsAuthorizedNamespace := fun _ _ => (some ⟨decision⟩, none)

/-- An oracle whose `IsRoot` answers `root` and whose permission queries fail with `e`. -/
def oraclePermissionFailing (root : Bool) (e : GoError) : AccountServiceClient where
  IsRoot := fun _ _ => (some ⟨root⟩, none)
  IsAuthorized := fun _ _ => (none, some e)
  IsAuthorizedNamespace := fun _ _ => (none, some e)

/-- An oracle whose every query fails with `e`. -/
def oracleFailing (e : GoError) : AccountServiceClient where
  IsRoot := fun _ _ => (none, some e)
  IsAuthorized := fun _ _ => (none, some e)
  IsAuthorizedNamespace := fun _ _ => (none, some e)

/-- A registry whose every call succeeds with the response `n`. -/
def registryOk (n : Nat) : DevicesClient natMessages where
  Create := fun _ _ => (some n, none)
  Update := fun _ _ => (some n, none)
  Get := fun _ _ => (some n, none)
  List := fun _ _ => (some n, none)
  ListForAccount := fun _ _ => (some n, none)
  Delete := fun _ _ => (some n, none)

/-- A registry whose every call fails with `e`. -/
def registryFailing (e : GoError) : DevicesClient natMessages where
  Create := fun _ _ => (none, some e)
  Update := fun _ _ => (none, some e)
  Get := fun _ _ => (none, some e)
  List := fun _ _ => (none, some e)
  ListForAccount := fun _ _ => (none, some e)
  Delete := fun _ _ => (none, some e)

/-! ## Missing identity -/

/-- Without a string under `account_id` the one-result type assertion in the first log
statement panics: every handler ends in a panic before any downstream call. -/
theorem panic_without_identity (d : deviceAPI M) (ctx : Context)
    (h : assertString (ctx.Value "account_id") = none) :
    (∀ request, d.Create ctx request = ⟨.panic, []⟩) ∧
    (∀ request, d.Update ctx request = ⟨.panic, []⟩) ∧
    (∀ request, d.Get ctx request = ⟨.panic, []⟩) ∧
    (∀ request, d.List ctx request = ⟨.panic, []⟩) ∧
    (∀ request, d.Delete ctx request = ⟨.panic, []⟩) := by
  refine ⟨?_, ?_, ?_, ?_, ?_⟩ <;> intro request
  · simp [deviceAPI.Create, h]
  · simp [deviceAPI.Update, h]
  · simp [deviceAPI.Get, h]
  · simp [deviceAPI.List, h]
  · simp [deviceAPI.Delete, h]

/-- C1, evaluated at the failing inputs: with no `account_id` in the context, and with an
`account_id` that is not a string, each of the five handlers panics (it does not return
Unauthenticated); no downstream call is made. -/
theorem C1_missing_identity_panics :
    (deviceAPI.mk (registryOk 1) (oracleConst true (some ⟨true⟩))).Create ctxAnonymous 7
        = ⟨.panic, []⟩ ∧
    (deviceAPI.mk (registryOk 1) (oracleConst true (some ⟨true⟩))).Update ctxAnonymous 7
        = ⟨.panic, []⟩ ∧
    (deviceAPI.mk (registryOk 1) (oracleConst true (some ⟨true⟩))).Get ctxAnonymous ⟨"d1"⟩
        = ⟨.panic, []⟩ ∧
    (deviceAPI.mk (registryOk 1) (oracleConst true (some ⟨true⟩))).List ctxAnonymous ⟨"ns1"⟩
        = ⟨.panic, []⟩ ∧
    (deviceAPI.mk (registryOk 1) (oracleConst true (some ⟨true⟩))).Delete ctxAnonymous ⟨"d1"⟩
        = ⟨.panic, []⟩ ∧
    (deviceAPI.mk (registryOk 1) (oracleConst true (some ⟨true⟩))).Create ctxWrongShape 7
        = ⟨.panic, []⟩ ∧
    (deviceAPI.mk (registryOk 1) (oracleConst true (some ⟨true⟩))).Update ctxWrongShape 7
        = ⟨.panic, []⟩ ∧
    (deviceAPI.mk (registryOk 1) (oracleConst true (some ⟨true⟩))).Get ctxWrongShape ⟨"d1"⟩
        = ⟨.panic, []⟩ ∧
    (deviceAPI.mk (registryOk 1) (oracleConst true (some ⟨true⟩))).List ctxWrongShape ⟨"ns1"⟩
        = ⟨.panic, []⟩ ∧
    (deviceAPI.mk (registryOk 1) (oracleConst true (some ⟨true⟩))).Delete ctxWrongShape ⟨"d1"⟩
        = ⟨.panic, []⟩ :=
  ⟨rfl, rfl, rfl, rfl, rfl, rfl, rfl, rfl, rfl, rfl⟩

/-! ## The authorization invariant -/

/-- C2, as stated, fails for Create: for the caller `u1`, an oracle that says "not root" and
"decision false" to every query, and whatever resource and action the invariant is read
with, Create reaches the registry with no grant before the call. -/
theorem C2_create_delegates_without_grant :
    ¬ ∃ (resource : String) (action : Action),
      authorizedBeforeDelegation (deviceAPI.mk (registryOk 1) (oracleConst false (some ⟨false⟩)))
        "u1" resource action false
        ((deviceAPI.mk (registryOk 1) (oracleConst false (some ⟨false⟩))).Create
          (ctxOf "u1") 7).calls = true := by
  rintro ⟨resource, action, h⟩
  have hrun : ((deviceAPI.mk (registryOk 1) (oracleConst false (some ⟨false⟩))).Create
      (ctxOf "u1") 7).calls
      = [Call.Create (AppendToOutgoingContext (ctxOf "u1") "requestorid" "u1") 7] := rfl
  rw [hrun] at h
  simp [authorizedBeforeDelegation, Call.isRegistry] at h

/-- C2, amended: in Get, List and Delete, for every gateway, context and request, each
Device Registry call of the run comes after an oracle call of the same run that granted:
`IsRoot` answered true for the caller, or the permission query for the caller, the
request's resource (the device id, the namespace) and the handler's action (READ for Get
and List, WRITE for Delete) answered with a true decision.  Create and Update, for a
caller with an identity, make exactly one downstream call, the registry call, and no
oracle query. -/
theorem C2_authorized_before_delegation (d : deviceAPI M) (ctx : Context) :
    (∀ request : GetRequest,
      authorizedBeforeDelegation d (caller ctx) request.Id .READ false
        (d.Get ctx request).calls = true) ∧
    (∀ request : apipb.ListDevicesRequest,
      authorizedBeforeDelegation d (caller ctx) request.Namespace .READ false
        (d.List ctx request).calls = true) ∧
    (∀ request : DeleteRequest,
      authorizedBeforeDelegation d (caller ctx) request.Id .WRITE false
        (d.Delete ctx request).calls = true) ∧
    (∀ (account : String) (request : M.CreateRequest),
      ctx.Value "account_id" = some (.str account) →
        (d.Create ctx request).calls
          = [.Create (AppendToOutgoingContext ctx "requestorid" account) request]) ∧
    (∀ (account : String) (request : M.UpdateRequest),
      ctx.Value "account_id" = some (.str account) →
        (d.Update ctx request).calls
          = [.Update (AppendToOutgoingContext ctx "requestorid" account) request]) := by
  refine ⟨?_, ?_, ?_, ?_, ?_⟩
  · intro request
    rcases hv : ctx.Value "account_id" with _ | ⟨s | n⟩
    · simp [deviceAPI.Get, hv, assertString, authorizedBeforeDelegation]
    · rcases hq : d.accountClient.IsAuthorized ctx ⟨request.Id, s, .READ⟩
        with ⟨_ | ⟨_ | ⟨_ | _⟩⟩, _ | e⟩ <;>
      simp [deviceAPI.Get, hv, hq, assertString, assertStringOk, caller,
        authorizedBeforeDelegation, Call.isRegistry, grants, BoolValue.GetValue,
        IsAuthorizedResponse.GetDecision]
    · simp [deviceAPI.Get, hv, assertString, authorizedBeforeDelegation]
  · intro request
    rcases hv : ctx.Value "account_id" with _ | ⟨s | n⟩
    · simp [deviceAPI.List, hv, assertString, authorizedBeforeDelegation]
    · rcases hr : d.accountClient.IsRoot ctx ⟨s⟩ with ⟨_ | ⟨_ | _⟩, _ | e⟩ <;>
        try simp [deviceAPI.List, hv, hr, assertString, assertStringOk, caller,
          authorizedBeforeDelegation, Call.isRegistry, grants]
      rcases hq : d.accountClient.IsAuthorizedNamespace ctx ⟨request.Namespace, s, .READ⟩
        with ⟨_ | ⟨_ | ⟨_ | _⟩⟩, _ | e⟩ <;>
      simp [deviceAPI.List, hv, hr, hq, assertString, assertStringOk, caller,
        authorizedBeforeDelegation, Call.isRegistry, grants, BoolValue.GetValue,
        IsAuthorizedNamespaceResponse.GetDecision]
    · simp [deviceAPI.List, hv, assertString, authorizedBeforeDelegation]
  · intro request
    rcases hv : ctx.Value "account_id" with _ | ⟨s | n⟩
    · simp [deviceAPI.Delete, hv, assertString, authorizedBeforeDelegation]
    · rcases hq : d.accountClient.IsAuthorized ctx ⟨request.Id, s, .WRITE⟩
        with ⟨_ | ⟨_ | ⟨_ | _⟩⟩, _ | e⟩ <;>
      simp [deviceAPI.Delete, hv, hq, assertString, assertStringOk, caller,
        authorizedBeforeDelegation, Call.isRegistry, grants, BoolValue.GetValue,
        IsAuthorizedResponse.GetDecision]
    · simp [deviceAPI.Delete, hv, assertString, authorizedBeforeDelegation]
  · intro account request hv
    rcases hq : d.client.Create (AppendToOutgoingContext ctx "requestorid" account) request
      with ⟨r, _ | e⟩ <;>
    simp [deviceAPI.Create, hv, hq, assertString]
  · intro account request hv
    rcases hq : d.client.Update (AppendToOutgoingContext ctx "requestorid" account) request
      with ⟨r, _ | e⟩ <;>
    simp [deviceAPI.Update, hv, hq, assertString]

/-- An instance of the invariant with a delegation in it: `u1` is granted READ on `d1`,
and Get calls the registry after the granting query. -/
theorem C2_authorized_before_delegation_witness :
    authorizedBeforeDelegation (deviceAPI.mk (registryOk 1) (oracleConst false (some ⟨true⟩)))
        "u1" "d1" .READ false
        ((deviceAPI.mk (registryOk 1) (oracleConst false (some ⟨true⟩))).Get
          (ctxOf "u1") ⟨"d1"⟩).calls = true ∧
    ((deviceAPI.mk (registryOk 1) (oracleConst false (some ⟨true⟩))).Get
        (ctxOf "u1") ⟨"d1"⟩).registryCalls = [.Get (ctxOf "u1") ⟨"d1"⟩] :=
  ⟨(C2_authorized_before_delegation
      (deviceAPI.mk (registryOk 1) (oracleConst false (some ⟨true⟩))) (ctxOf "u1")).1 ⟨"d1"⟩,
    rfl⟩

/-! ## Get and Delete: the decision -/

/-- What Get and Delete do with a successful `IsAuthorized` reply that carries a decision:
on false they return PermissionDenied after the one oracle call; on true they call the
registry once, with the inbound context and the caller's request, and return what it
returns. -/
theorem get_delete_on_decision (d : deviceAPI M) (ctx : Context) (account : String)
    (hid : ctx.Value "account_id" = some (.str account)) :
    (∀ request : GetRequest,
      d.accountClient.IsAuthorized ctx ⟨request.Id, account, .READ⟩
          = (some ⟨some ⟨false⟩⟩, none) →
        d.Get ctx request
          = ⟨.ret none (some (.status .PermissionDenied
                "The account does not have permission to get device list.")),
             [.IsAuthorized ctx ⟨request.Id, account, .READ⟩]⟩) ∧
    (∀ request : GetRequest,
      d.accountClient.IsAuthorized ctx ⟨request.Id, account, .READ⟩
          = (some ⟨some ⟨true⟩⟩, none) →
        d.Get ctx request
          = ⟨.ret (d.client.Get ctx request).1 (d.client.Get ctx request).2,
             [.IsAuthorized ctx ⟨request.Id, account, .READ⟩, .Get ctx request]⟩) ∧
    (∀ request : DeleteRequest,
      d.accountClient.IsAuthorized ctx ⟨request.Id, account, .WRITE⟩
          = (some ⟨some ⟨false⟩⟩, none) →
        d.Delete ctx request
          = ⟨.ret none (some (.status .PermissionDenied
                "The account does not have permission to delete the device.")),
             [.IsAuthorized ctx ⟨request.Id, account, .WRITE⟩]⟩) ∧
    (∀ request : DeleteRequest,
      d.accountClient.IsAuthorized ctx ⟨request.Id, account, .WRITE⟩
          = (some ⟨some ⟨true⟩⟩, none) →
        d.Delete ctx request
          = ⟨.ret (d.client.Delete ctx request).1 (d.client.Delete ctx request).2,
             [.IsAuthorized ctx ⟨request.Id, account, .WRITE⟩, .Delete ctx request]⟩) := by
  refine ⟨?_, ?_, ?_, ?_⟩ <;> intro request hq
  · simp [deviceAPI.Get, hid, hq, assertString, assertStringOk, statusError,
      BoolValue.GetValue, IsAuthorizedResponse.GetDecision]
  · simp [deviceAPI.Get, hid, hq, assertString, assertStringOk,
      BoolValue.GetValue, IsAuthorizedResponse.GetDecision]
  · simp [deviceAPI.Delete, hid, hq, assertString, assertStringOk, statusError,
      BoolValue.GetValue, IsAuthorizedResponse.GetDecision]
  · simp [deviceAPI.Delete, hid, hq, assertString, assertStringOk,
      BoolValue.GetValue, IsAuthorizedResponse.GetDecision]

/-- The defect behind C3, for every gateway: when `IsAuthorized` succeeds with a response
whose decision field is absent, Get and Delete panic at the `fmt.Println` that reads
`resp.Decision.Value`, after the oracle call and before any registry call. -/
theorem get_delete_panic_on_absent_decision (d : deviceAPI M) (ctx : Context)
    (account : String) (hid : ctx.Value "account_id" = some (.str account)) :
    (∀ request : GetRequest,
      d.accountClient.IsAuthorized ctx ⟨request.Id, account, .READ⟩ = (some ⟨none⟩, none) →
        d.Get ctx request = ⟨.panic, [.IsAuthorized ctx ⟨request.Id, account, .READ⟩]⟩) ∧
    (∀ request : DeleteRequest,
      d.accountClient.IsAuthorized ctx ⟨request.Id, account, .WRITE⟩ = (some ⟨none⟩, none) →
        d.Delete ctx request
          = ⟨.panic, [.IsAuthorized ctx ⟨request.Id, account, .WRITE⟩]⟩) := by
  refine ⟨?_, ?_⟩ <;> intro request hq
  · simp [deviceAPI.Get, hid, hq, assertString, assertStringOk]
  · simp [deviceAPI.Delete, hid, hq, assertString, assertStringOk]

/-- C3, evaluated at the failing input: the caller `u1` is present, `IsAuthorized`
succeeds, and its response has no decision field; Get and Delete panic after the oracle
call (they do not return PermissionDenied).  The registry is not called. -/
theorem C3_absent_decision_panics :
    (deviceAPI.mk (registryOk 1) (oracleConst false none)).Get (ctxOf "u1") ⟨"d1"⟩
      = ⟨.panic, [.IsAuthorized (ctxOf "u1") ⟨"d1", "u1", .READ⟩]⟩ ∧
    (deviceAPI.mk (registryOk 1) (oracleConst false none)).Delete (ctxOf "u1") ⟨"d1"⟩
      = ⟨.panic, [.IsAuthorized (ctxOf "u1") ⟨"d1", "u1", .WRITE⟩]⟩ ∧
    ((deviceAPI.mk (registryOk 1) (oracleConst false none)).Get
        (ctxOf "u1") ⟨"d1"⟩).outcome.code ≠ some .PermissionDenied ∧
    ((deviceAPI.mk (registryOk 1) (oracleConst false none)).Delete
        (ctxOf "u1") ⟨"d1"⟩).outcome.code ≠ some .PermissionDenied :=
  ⟨rfl, rfl, by decide, by decide⟩

/-! ## List -/

/-- C4: in List, for a caller with an identity: when `IsRoot` answers true, the run is the
`IsRoot` query followed by the registry's `List` on the request's namespace with an empty
account, and `IsAuthorizedNamespace` is not queried; when `IsRoot` answers false and
`IsAuthorizedNamespace` answers with a true decision, the registry's `ListForAccount` is
called with the request's namespace and the caller's account; when `IsRoot` answers false
and the decision is not true (false, absent, or no response at all), List returns
PermissionDenied and the run has no registry call. -/
theorem C4_list_protocol (d : deviceAPI M) (ctx : Context)
    (request : apipb.ListDevicesRequest) (account : String)
    (hid : ctx.Value "account_id" = some (.str account)) :
    (d.accountClient.IsRoot ctx ⟨account⟩ = (some ⟨true⟩, none) →
      d.List ctx request
        = ⟨.ret (d.client.List ctx ⟨request.Namespace, ""⟩).1
              (d.client.List ctx ⟨request.Namespace, ""⟩).2,
           [.IsRoot ctx ⟨account⟩, .List ctx ⟨request.Namespace, ""⟩]⟩) ∧
    (d.accountClient.IsRoot ctx ⟨account⟩ = (some ⟨false⟩, none) →
      ∀ resp, d.accountClient.IsAuthorizedNamespace ctx ⟨request.Namespace, account, .READ⟩
          = (resp, none) →
        BoolValue.GetValue (IsAuthorizedNamespaceResponse.GetDecision resp) = true →
        d.List ctx request
          = ⟨.ret (d.client.ListForAccount ctx ⟨request.Namespace, account⟩).1
                (d.client.ListForAccount ctx ⟨request.Namespace, account⟩).2,
             [.IsRoot ctx ⟨account⟩,
              .IsAuthorizedNamespace ctx ⟨request.Namespace, account, .READ⟩,
              .ListForAccount ctx ⟨request.Namespace, account⟩]⟩) ∧
    (d.accountClient.IsRoot ctx ⟨account⟩ = (some ⟨false⟩, none) →
      ∀ resp, d.accountClient.IsAuthorizedNamespace ctx ⟨request.Namespace, account, .READ⟩
          = (resp, none) →
        BoolValue.GetValue (IsAuthorizedNamespaceResponse.GetDecision resp) ≠ true →
        d.List ctx request
          = ⟨.ret none (some (.status .PermissionDenied
                "The account does not have permission to list device.")),
             [.IsRoot ctx ⟨account⟩,
              .IsAuthorizedNamespace ctx ⟨request.Namespace, account, .READ⟩]⟩) := by
  refine ⟨?_, ?_, ?_⟩
  · intro hr
    simp [deviceAPI.List, hid, hr, assertString, assertStringOk]
  · intro hr resp hq hdec
    simp [deviceAPI.List, hid, hr, hq, hdec, assertString, assertStringOk]
  · intro hr resp hq hdec
    simp [deviceAPI.List, hid, hr, hq, hdec, assertString, assertStringOk, statusError]

/-- C4 at concrete collaborators: the root `root-1` lists `ns1` through the registry's
`List`; `u2`, not root and granted, through `ListForAccount`; `u1`, not root and refused,
gets PermissionDenied with no registry call. -/
theorem C4_list_protocol_witness :
    (deviceAPI.mk (registryOk 5) (oracleConst true (some ⟨false⟩))).List (ctxOf "root-1") ⟨"ns1"⟩
      = ⟨.ret (some 5) none,
         [.IsRoot (ctxOf "root-1") ⟨"root-1"⟩, .List (ctxOf "root-1") ⟨"ns1", ""⟩]⟩ ∧
    (deviceAPI.mk (registryOk 5) (oracleConst false (some ⟨true⟩))).List (ctxOf "u2") ⟨"ns1"⟩
      = ⟨.ret (some 5) none,
         [.IsRoot (ctxOf "u2") ⟨"u2"⟩,
          .IsAuthorizedNamespace (ctxOf "u2") ⟨"ns1", "u2", .READ⟩,
          .ListForAccount (ctxOf "u2") ⟨"ns1", "u2"⟩]⟩ ∧
    (deviceAPI.mk (registryOk 5) (oracleConst false (some ⟨false⟩))).List (ctxOf "u1") ⟨"ns1"⟩
      = ⟨.ret none (some (.status .PermissionDenied
            "The account does not have permission to list device.")),
         [.IsRoot (ctxOf "u1") ⟨"u1"⟩,
          .IsAuthorizedNamespace (ctxOf "u1") ⟨"ns1", "u1", .READ⟩]⟩ :=
  ⟨(C4_list_protocol (deviceAPI.mk (registryOk 5) (oracleConst true (some ⟨false⟩)))
      (ctxOf "root-1") ⟨"ns1"⟩ "root-1" rfl).1 rfl,
   (C4_list_protocol (deviceAPI.mk (registryOk 5) (oracleConst false (some ⟨true⟩)))
      (ctxOf "u2") ⟨"ns1"⟩ "u2" rfl).2.1 rfl _ rfl rfl,
   (C4_list_protocol (deviceAPI.mk (registryOk 5) (oracleConst false (some ⟨false⟩)))
      (ctxOf "u1") ⟨"ns1"⟩ "u1" rfl).2.2 rfl _ rfl (by decide)⟩

/-! ## What a handler returns after delegation -/

/-- What Create and Update return once they have called the registry: on an error, no
response and an Internal status error with the text of the registry's error; otherwise
the registry's response and no error. -/
theorem create_update_outcome (d : deviceAPI M) (ctx : Context) :
    (∀ request cx rq, Call.Create cx rq ∈ (d.Create ctx request).calls →
      (d.Create ctx request).outcome
        = match d.client.Create cx rq with
          | (_, some e) => .ret none (some (.status .Internal e.Error))
          | (res, none) => .ret res none) ∧
    (∀ request cx rq, Call.Update cx rq ∈ (d.Update ctx request).calls →
      (d.Update ctx request).outcome
        = match d.client.Update cx rq with
          | (_, some e) => .ret none (some (.status .Internal e.Error))
          | (res, none) => .ret res none) := by
  refine ⟨?_, ?_⟩
  · intro request cx rq hmem
    rcases hv : ctx.Value "account_id" with _ | ⟨s | n⟩
    · simp [deviceAPI.Create, hv, assertString] at hmem
    · rcases hc : d.client.Create (AppendToOutgoingContext ctx "requestorid" s) request
        with ⟨r, _ | e2⟩ <;>
      simp [deviceAPI.Create, hv, hc, assertString] at hmem <;>
      obtain ⟨rfl, rfl⟩ := hmem <;>
      simp [deviceAPI.Create, hv, hc, assertString, statusError]
    · simp [deviceAPI.Create, hv, assertString] at hmem
  · intro request cx rq hmem
    rcases hv : ctx.Value "account_id" with _ | ⟨s | n⟩
    · simp [deviceAPI.Update, hv, assertString] at hmem
    · rcases hc : d.client.Update (AppendToOutgoingContext ctx "requestorid" s) request
        with ⟨r, _ | e2⟩ <;>
      simp [deviceAPI.Update, hv, hc, assertString] at hmem <;>
      obtain ⟨rfl, rfl⟩ := hmem <;>
      simp [deviceAPI.Update, hv, hc, assertString, statusError]
    · simp [deviceAPI.Update, hv, assertString] at hmem

/-- What Get, List and Delete return once they have called the registry: the pair the
registry call returned. -/
theorem registry_pair_returned (d : deviceAPI M) (ctx : Context) :
    (∀ request cx rq, Call.Get cx rq ∈ (d.Get ctx request).calls →
      (d.Get ctx request).outcome = .ret (d.client.Get cx rq).1 (d.client.Get cx rq).2) ∧
    (∀ request cx rq, Call.List cx rq ∈ (d.List ctx request).calls →
      (d.List ctx request).outcome = .ret (d.client.List cx rq).1 (d.client.List cx rq).2) ∧
    (∀ request cx rq, Call.ListForAccount cx rq ∈ (d.List ctx request).calls →
      (d.List ctx request).outcome
        = .ret (d.client.ListForAccount cx rq).1 (d.client.ListForAccount cx rq).2) ∧
    (∀ request cx rq, Call.Delete cx rq ∈ (d.Delete ctx request).calls →
      (d.Delete ctx request).outcome
        = .ret (d.client.Delete cx rq).1 (d.client.Delete cx rq).2) := by
  refine ⟨?_, ?_, ?_, ?_⟩
  · intro request cx rq hmem
    rcases hv : ctx.Value "account_id" with _ | ⟨s | n⟩
    · simp [deviceAPI.Get, hv, assertString] at hmem
    · rcases hq : d.accountClient.IsAuthorized ctx ⟨request.Id, s, .READ⟩
        with ⟨_ | ⟨_ | ⟨_ | _⟩⟩, _ | e⟩ <;>
      simp [deviceAPI.Get, hv, hq, assertString, assertStringOk, BoolValue.GetValue,
        IsAuthorizedResponse.GetDecision] at hmem ⊢
      obtain ⟨rfl, rfl⟩ := hmem
      exact ⟨rfl, rfl⟩
    · simp [deviceAPI.Get, hv, assertString] at hmem
  · intro request cx rq hmem
    rcases hv : ctx.Value "account_id" with _ | ⟨s | n⟩
    · simp [deviceAPI.List, hv, assertString] at hmem
    · rcases hr : d.accountClient.IsRoot ctx ⟨s⟩ with ⟨_ | ⟨_ | _⟩, _ | e⟩
      · simp [deviceAPI.List, hv, hr, assertString, assertStringOk] at hmem
      · simp [deviceAPI.List, hv, hr, assertString, assertStringOk] at hmem
      · rcases hq : d.accountClient.IsAuthorizedNamespace ctx ⟨request.Namespace, s, .READ⟩
          with ⟨_ | ⟨_ | ⟨_ | _⟩⟩, _ | e⟩ <;>
        simp [deviceAPI.List, hv, hr, hq, assertString, assertStringOk, BoolValue.GetValue,
          IsAuthorizedNamespaceResponse.GetDecision] at hmem
      · simp [deviceAPI.List, hv, hr, assertString, assertStringOk] at hmem
      · simp [deviceAPI.List, hv, hr, assertString, assertStringOk] at hmem ⊢
        obtain ⟨rfl, rfl⟩ := hmem
        exact ⟨rfl, rfl⟩
      · simp [deviceAPI.List, hv, hr, assertString, assertStringOk] at hmem
    · simp [deviceAPI.List, hv, assertString] at hmem
  · intro request cx rq hmem
    rcases hv : ctx.Value "account_id" with _ | ⟨s | n⟩
    · simp [deviceAPI.List, hv, assertString] at hmem
    · rcases hr : d.accountClient.IsRoot ctx ⟨s⟩ with ⟨_ | ⟨_ | _⟩, _ | e⟩
      · simp [deviceAPI.List, hv, hr, assertString, assertStringOk] at hmem
      · simp [deviceAPI.List, hv, hr, assertString, assertStringOk] at hmem
      · rcases hq : d.accountClient.IsAuthorizedNamespace ctx ⟨request.Namespace, s, .READ⟩
          with ⟨_ | ⟨_ | ⟨_ | _⟩⟩, _ | e⟩ <;>
        simp [deviceAPI.List, hv, hr, hq, assertString, assertStringOk, BoolValue.GetValue,
          IsAuthorizedNamespaceResponse.GetDecision] at hmem ⊢
        obtain ⟨rfl, rfl⟩ := hmem
        exact ⟨rfl, rfl⟩
      · simp [deviceAPI.List, hv, hr, assertString, assertStringOk] at hmem
      · simp [deviceAPI.List, hv, hr, assertString, assertStringOk] at hmem
      · simp [deviceAPI.List, hv, hr, assertString, assertStringOk] at hmem
    · simp [deviceAPI.List, hv, assertString] at hmem
  · intro request cx rq hmem
    rcases hv : ctx.Value "account_id" with _ | ⟨s | n⟩
    · simp [deviceAPI.Delete, hv, assertString] at hmem
    · rcases hq : d.accountClient.IsAuthorized ctx ⟨request.Id, s, .WRITE⟩
        with ⟨_ | ⟨_ | ⟨_ | _⟩⟩, _ | e⟩ <;>
      simp [deviceAPI.Delete, hv, hq, assertString, assertStringOk, BoolValue.GetValue,
        IsAuthorizedResponse.GetDecision] at hmem ⊢
      obtain ⟨rfl, rfl⟩ := hmem
      exact ⟨rfl, rfl⟩
    · simp [deviceAPI.Delete, hv, assertString] at hmem

/-! ## Registry errors -/

/-- C5, as stated, fails for Get: `u1` is granted READ on `d1`, the registry's `Get` fails
with a NotFound status error, and the gateway returns that error as it is: the caller
sees the code NotFound, not Internal. -/
theorem C5_get_returns_registry_code :
    ((deviceAPI.mk (registryFailing (.status .NotFound "no such device"))
        (oracleConst false (some ⟨true⟩))).Get (ctxOf "u1") ⟨"d1"⟩).registryCalls
      = [.Get (ctxOf "u1") ⟨"d1"⟩] ∧
    (registryFailing (.status .NotFound "no such device")).Get (ctxOf "u1") ⟨"d1"⟩
      = (none, some (.status .NotFound "no such device")) ∧
    ((deviceAPI.mk (registryFailing (.status .NotFound "no such device"))
        (oracleConst false (some ⟨true⟩))).Get (ctxOf "u1") ⟨"d1"⟩).outcome.code
      = some .NotFound ∧
    ((deviceAPI.mk (registryFailing (.status .NotFound "no such device"))
        (oracleConst false (some ⟨true⟩))).Get (ctxOf "u1") ⟨"d1"⟩).outcome.code
      ≠ some .Internal :=
  ⟨rfl, rfl, rfl, by decide⟩

/-- C5, amended: in Create and Update, whenever the delegated registry call returns an
error, the gateway returns no response value and an Internal status error whose
description is the text of the registry's error.  In Get, List and Delete, whenever the
registry is called (`Get`, `List`, `ListForAccount`, `Delete`), the gateway returns the
pair the registry returned, response and error, unchanged. -/
theorem C5_registry_error_translation (d : deviceAPI M) (ctx : Context) :
    (∀ request cx rq resp e, Call.Create cx rq ∈ (d.Create ctx request).calls →
      d.client.Create cx rq = (resp, some e) →
      (d.Create ctx request).outcome = .ret none (some (.status .Internal e.Error))) ∧
    (∀ request cx rq resp e, Call.Update cx rq ∈ (d.Update ctx request).calls →
      d.client.Update cx rq = (resp, some e) →
      (d.Update ctx request).outcome = .ret none (some (.status .Internal e.Error))) ∧
    (∀ request cx rq, Call.Get cx rq ∈ (d.Get ctx request).calls →
      (d.Get ctx request).outcome = .ret (d.client.Get cx rq).1 (d.client.Get cx rq).2) ∧
    (∀ request cx rq, Call.List cx rq ∈ (d.List ctx request).calls →
      (d.List ctx request).outcome = .ret (d.client.List cx rq).1 (d.client.List cx rq).2) ∧
    (∀ request cx rq, Call.ListForAccount cx rq ∈ (d.List ctx request).calls →
      (d.List ctx request).outcome
        = .ret (d.client.ListForAccount cx rq).1 (d.client.ListForAccount cx rq).2) ∧
    (∀ request cx rq, Call.Delete cx rq ∈ (d.Delete ctx request).calls →
      (d.Delete ctx request).outcome
        = .ret (d.client.Delete cx rq).1 (d.client.Delete cx rq).2) := by
  refine ⟨?_, ?_, (registry_pair_returned d ctx).1, (registry_pair_returned d ctx).2.1,
    (registry_pair_returned d ctx).2.2.1, (registry_pair_returned d ctx).2.2.2⟩
  · intro request cx rq resp e hmem hq
    rw [(create_update_outcome d ctx).1 request cx rq hmem, hq]
  · intro request cx rq resp e hmem hq
    rw [(create_update_outcome d ctx).2 request cx rq hmem, hq]

/-- C5 (amended) at concrete collaborators: a registry failing with a NotFound status error
makes Create and Update return Internal with that error's text and no response, and makes
Delete, once `u2` is granted WRITE on `d1`, return the NotFound error itself. -/
theorem C5_registry_error_translation_witness :
    ((deviceAPI.mk (registryFailing (.status .NotFound "gone"))
        (oracleConst false (some ⟨true⟩))).Create (ctxOf "u2") 7).outcome
      = .ret none (some (.status .Internal "rpc error: code = NotFound desc = gone")) ∧
    ((deviceAPI.mk (registryFailing (.status .NotFound "gone"))
        (oracleConst false (some ⟨true⟩))).Update (ctxOf "u2") 7).outcome
      = .ret none (some (.status .Internal "rpc error: code = NotFound desc = gone")) ∧
    ((deviceAPI.mk (registryFailing (.status .NotFound "gone"))
        (oracleConst false (some ⟨true⟩))).Delete (ctxOf "u2") ⟨"d1"⟩).outcome
      = .ret none (some (.status .NotFound "gone")) :=
  ⟨(C5_registry_error_translation
      (deviceAPI.mk (registryFailing (.status .NotFound "gone"))
        (oracleConst false (some ⟨true⟩))) (ctxOf "u2")).1 7
      (AppendToOutgoingContext (ctxOf "u2") "requestorid" "u2") 7 none
      (.status .NotFound "gone") (List.mem_singleton.mpr rfl) rfl,
   (C5_registry_error_translation
      (deviceAPI.mk (registryFailing (.status .NotFound "gone"))
        (oracleConst false (some ⟨true⟩))) (ctxOf "u2")).2.1 7
      (AppendToOutgoingContext (ctxOf "u2") "requestorid" "u2") 7 none
      (.status .NotFound "gone") (List.mem_singleton.mpr rfl) rfl,
   (C5_registry_error_translation
      (deviceAPI.mk (registryFailing (.status .NotFound "gone"))
        (oracleConst false (some ⟨true⟩))) (ctxOf "u2")).2.2.2.2.2 ⟨"d1"⟩
      (ctxOf "u2") ⟨"d1"⟩ (List.mem_cons_of_mem _ (List.mem_singleton.mpr rfl))⟩

/-! ## Attribution -/

/-- C6, as stated, fails for Get: `u1` is granted READ on `d1` and the inbound context has
no outgoing metadata; the registry's `Get` is called with that same context, which does
not carry `u1` under `requestorid`. -/
theorem C6_get_delegates_without_requestor :
    ((deviceAPI.mk (registryOk 1) (oracleConst false (some ⟨true⟩))).Get
        (ctxOf "u1") ⟨"d1"⟩).registryCalls = [.Get (ctxOf "u1") ⟨"d1"⟩] ∧
    (((deviceAPI.mk (registryOk 1) (oracleConst false (some ⟨true⟩))).Get
        (ctxOf "u1") ⟨"d1"⟩).registryCalls.all (carriesRequestor "u1")) = false ∧
    (ctxOf "u1").outgoing = [] :=
  ⟨rfl, rfl, rfl⟩

/-- C6, amended: in Create and Update every downstream call of a run is the registry call,
made with the inbound context extended by the pair (`requestorid`, the caller's
`account_id`), so it carries the caller under `requestorid`.  In Get, List and Delete
every downstream call, the registry call included, is made with the inbound context
itself: the gateway adds no metadata there. -/
theorem C6_attribution (d : deviceAPI M) (ctx : Context) :
    (∀ request c, c ∈ (d.Create ctx request).calls →
      ∃ account, ctx.Value "account_id" = some (.str account) ∧
        c = .Create (AppendToOutgoingContext ctx "requestorid" account) request ∧
        carriesRequestor account c = true) ∧
    (∀ request c, c ∈ (d.Update ctx request).calls →
      ∃ account, ctx.Value "account_id" = some (.str account) ∧
        c = .Update (AppendToOutgoingContext ctx "requestorid" account) request ∧
        carriesRequestor account c = true) ∧
    (∀ request c, c ∈ (d.Get ctx request).calls → c.ctx = ctx) ∧
    (∀ request c, c ∈ (d.List ctx request).calls → c.ctx = ctx) ∧
    (∀ request c, c ∈ (d.Delete ctx request).calls → c.ctx = ctx) := by
  refine ⟨?_, ?_, ?_, ?_, ?_⟩
  · intro request c hmem
    rcases hv : ctx.Value "account_id" with _ | ⟨s | n⟩
    · simp [deviceAPI.Create, hv, assertString] at hmem
    · rcases hc : d.client.Create (AppendToOutgoingContext ctx "requestorid" s) request
        with ⟨r, _ | e2⟩ <;>
      simp [deviceAPI.Create, hv, hc, assertString] at hmem <;>
      subst hmem <;>
      simp [carriesRequestor, Call.ctx, AppendToOutgoingContext]
    · simp [deviceAPI.Create, hv, assertString] at hmem
  · intro request c hmem
    rcases hv : ctx.Value "account_id" with _ | ⟨s | n⟩
    · simp [deviceAPI.Update, hv, assertString] at hmem
    · rcases hc : d.client.Update (AppendToOutgoingContext ctx "requestorid" s) request
        with ⟨r, _ | e2⟩ <;>
      simp [deviceAPI.Update, hv, hc, assertString] at hmem <;>
      subst hmem <;>
      simp [carriesRequestor, Call.ctx, AppendToOutgoingContext]
    · simp [deviceAPI.Update, hv, assertString] at hmem
  · intro request c hmem
    rcases hv : ctx.Value "account_id" with _ | ⟨s | n⟩
    · simp [deviceAPI.Get, hv, assertString] at hmem
    · rcases hq : d.accountClient.IsAuthorized ctx ⟨request.Id, s, .READ⟩
        with ⟨_ | ⟨_ | ⟨_ | _⟩⟩, _ | e⟩ <;>
      simp [deviceAPI.Get, hv, hq, assertString, assertStringOk, BoolValue.GetValue,
        IsAuthorizedResponse.GetDecision] at hmem <;>
      rcases hmem with rfl | rfl <;> rfl
    · simp [deviceAPI.Get, hv, assertString] at hmem
  · intro request c hmem
    rcases hv : ctx.Value "account_id" with _ | ⟨s | n⟩
    · simp [deviceAPI.List, hv, assertString] at hmem
    · rcases hr : d.accountClient.IsRoot ctx ⟨s⟩ with ⟨_ | ⟨_ | _⟩, _ | e⟩
      · simp [deviceAPI.List, hv, hr, assertString, assertStringOk] at hmem
        subst hmem
        rfl
      · simp [deviceAPI.List, hv, hr, assertString, assertStringOk] at hmem
        subst hmem
        rfl
      · rcases hq : d.accountClient.IsAuthorizedNamespace ctx ⟨request.Namespace, s, .READ⟩
          with ⟨_ | ⟨_ | ⟨_ | _⟩⟩, _ | e⟩ <;>
        simp [deviceAPI.List, hv, hr, hq, assertString, assertStringOk, BoolValue.GetValue,
          IsAuthorizedNamespaceResponse.GetDecision] at hmem <;>
        rcases hmem with rfl | rfl | rfl <;> rfl
      · simp [deviceAPI.List, hv, hr, assertString, assertStringOk] at hmem
        subst hmem
        rfl
      · simp [deviceAPI.List, hv, hr, assertString, assertStringOk] at hmem
        rcases hmem with rfl | rfl <;> rfl
      · simp [deviceAPI.List, hv, hr, assertString, assertStringOk] at hmem
        subst hmem
        rfl
    · simp [deviceAPI.List, hv, assertString] at hmem
  · intro request c hmem
    rcases hv : ctx.Value "account_id" with _ | ⟨s | n⟩
    · simp [deviceAPI.Delete, hv, assertString] at hmem
    · rcases hq : d.accountClient.IsAuthorized ctx ⟨request.Id, s, .WRITE⟩
        with ⟨_ | ⟨_ | ⟨_ | _⟩⟩, _ | e⟩ <;>
      simp [deviceAPI.Delete, hv, hq, assertString, assertStringOk, BoolValue.GetValue,
        IsAuthorizedResponse.GetDecision] at hmem <;>
      rcases hmem with rfl | rfl <;> rfl
    · simp [deviceAPI.Delete, hv, assertString] at hmem

/-- C6 (amended) at concrete collaborators: Create for `u2` makes one downstream call,
the registry's `Create`, whose context carries `requestorid = u2`; Get for `u2` calls the
registry with the inbound context. -/
theorem C6_attribution_witness :
    ((deviceAPI.mk (registryOk 1) (oracleConst false (some ⟨true⟩))).Create
        (ctxOf "u2") 7).calls
      = [.Create (AppendToOutgoingContext (ctxOf "u2") "requestorid" "u2") 7] ∧
    (∃ account, (ctxOf "u2").Value "account_id" = some (.str account) ∧
        (Call.Create (AppendToOutgoingContext (ctxOf "u2") "requestorid" "u2") 7
            : Call natMessages)
          = .Create (AppendToOutgoingContext (ctxOf "u2") "requestorid" account) 7 ∧
        carriesRequestor account
          (Call.Create (AppendToOutgoingContext (ctxOf "u2") "requestorid" "u2") 7
            : Call natMessages) = true) ∧
    (AppendToOutgoingContext (ctxOf "u2") "requestorid" "u2").outgoing
      = [("requestorid", "u2")] ∧
    ((deviceAPI.mk (registryOk 1) (oracleConst false (some ⟨true⟩))).Get
        (ctxOf "u2") ⟨"d1"⟩).calls
      = [.IsAuthorized (ctxOf "u2") ⟨"d1", "u2", .READ⟩, .Get (ctxOf "u2") ⟨"d1"⟩] ∧
    (Call.Get (ctxOf "u2") ⟨"d1"⟩ : Call natMessages).ctx = ctxOf "u2" :=
  ⟨rfl,
   (C6_attribution (deviceAPI.mk (registryOk 1) (oracleConst false (some ⟨true⟩)))
      (ctxOf "u2")).1 7 _ (List.mem_singleton.mpr rfl),
   rfl,
   rfl,
   (C6_attribution (deviceAPI.mk (registryOk 1) (oracleConst false (some ⟨true⟩)))
      (ctxOf "u2")).2.2.1 ⟨"d1"⟩ _ (List.mem_cons_of_mem _ (List.mem_singleton.mpr rfl))⟩

/-! ## Oracle failures -/

/-- C7: for a caller with an identity, when the permission query returns an error,
whatever the error and whatever response comes with it, the handler returns no response and
a PermissionDenied status error, and the run holds the oracle calls only: `IsAuthorized`
in Get and in Delete, `IsRoot` (answered "not root") and `IsAuthorizedNamespace` in
List. -/
theorem C7_oracle_failure_denied (d : deviceAPI M) (ctx : Context) (account : String)
    (hid : ctx.Value "account_id" = some (.str account)) :
    (∀ (request : GetRequest) resp e,
      d.accountClient.IsAuthorized ctx ⟨request.Id, account, .READ⟩ = (resp, some e) →
        d.Get ctx request
          = ⟨.ret none (some (.status .PermissionDenied
                "Could not get permission to list devices.")),
             [.IsAuthorized ctx ⟨request.Id, account, .READ⟩]⟩) ∧
    (∀ (request : DeleteRequest) resp e,
      d.accountClient.IsAuthorized ctx ⟨request.Id, account, .WRITE⟩ = (resp, some e) →
        d.Delete ctx request
          = ⟨.ret none (some (.status .PermissionDenied
                "Could not get permission to list devices.")),
             [.IsAuthorized ctx ⟨request.Id, account, .WRITE⟩]⟩) ∧
    (∀ (request : apipb.ListDevicesRequest) resp e,
      d.accountClient.IsRoot ctx ⟨account⟩ = (some ⟨false⟩, none) →
      d.accountClient.IsAuthorizedNamespace ctx ⟨request.Namespace, account, .READ⟩
          = (resp, some e) →
        d.List ctx request
          = ⟨.ret none (some (.status .PermissionDenied
                "Could not get permission to list device.")),
             [.IsRoot ctx ⟨account⟩,
              .IsAuthorizedNamespace ctx ⟨request.Namespace, account, .READ⟩]⟩) := by
  refine ⟨?_, ?_, ?_⟩
  · intro request resp e hq
    simp [deviceAPI.Get, hid, hq, assertString, assertStringOk, statusError]
  · intro request resp e hq
    simp [deviceAPI.Delete, hid, hq, assertString, assertStringOk, statusError]
  · intro request resp e hr hq
    simp [deviceAPI.List, hid, hr, hq, assertString, assertStringOk, statusError]

/-- C7 at concrete collaborators: the permission queries fail with an Unavailable status
error; Get, Delete and List for the non-root `u1` are classified PermissionDenied and
have no registry call. -/
theorem C7_oracle_failure_denied_witness :
    (((deviceAPI.mk (registryOk 1) (oraclePermissionFailing false (.status .Unavailable "down"))).Get
        (ctxOf "u1") ⟨"d1"⟩).outcome.code = some .PermissionDenied ∧
      ((deviceAPI.mk (registryOk 1) (oraclePermissionFailing false (.status .Unavailable "down"))).Get
        (ctxOf "u1") ⟨"d1"⟩).registryCalls = []) ∧
    (((deviceAPI.mk (registryOk 1) (oraclePermissionFailing false (.status .Unavailable "down"))).Delete
        (ctxOf "u1") ⟨"d1"⟩).outcome.code = some .PermissionDenied ∧
      ((deviceAPI.mk (registryOk 1) (oraclePermissionFailing false (.status .Unavailable "down"))).Delete
        (ctxOf "u1") ⟨"d1"⟩).registryCalls = []) ∧
    (((deviceAPI.mk (registryOk 1) (oraclePermissionFailing false (.status .Unavailable "down"))).List
        (ctxOf "u1") ⟨"ns1"⟩).outcome.code = some .PermissionDenied ∧
      ((deviceAPI.mk (registryOk 1) (oraclePermissionFailing false (.status .Unavailable "down"))).List
        (ctxOf "u1") ⟨"ns1"⟩).registryCalls = []) := by
  have h := C7_oracle_failure_denied
    (deviceAPI.mk (registryOk 1) (oraclePermissionFailing false (.status .Unavailable "down")))
    (ctxOf "u1") "u1" rfl
  refine ⟨?_, ?_, ?_⟩
  · rw [h.1 ⟨"d1"⟩ none (.status .Unavailable "down") rfl]
    exact ⟨rfl, rfl⟩
  · rw [h.2.1 ⟨"d1"⟩ none (.status .Unavailable "down") rfl]
    exact ⟨rfl, rfl⟩
  · rw [h.2.2 ⟨"ns1"⟩ none (.status .Unavailable "down") rfl rfl]
    exact ⟨rfl, rfl⟩

/-- C8, as stated, fails: `IsRoot` fails with an Unavailable status error and List returns
that error; the caller sees the code Unavailable, not Internal. -/
theorem C8_list_returns_isroot_error_code :
    (oracleFailing (.status .Unavailable "down")).IsRoot (ctxOf "u1") ⟨"u1"⟩
      = (none, some (.status .Unavailable "down")) ∧
    ((deviceAPI.mk (registryOk 1) (oracleFailing (.status .Unavailable "down"))).List
        (ctxOf "u1") ⟨"ns1"⟩).outcome.code = some .Unavailable ∧
    ((deviceAPI.mk (registryOk 1) (oracleFailing (.status .Unavailable "down"))).List
        (ctxOf "u1") ⟨"ns1"⟩).outcome.code ≠ some .Internal :=
  ⟨rfl, rfl, by decide⟩

/-- C8, amended: for a caller with an identity, when the `IsRoot` query returns an error,
whatever the error and whatever response comes with it, List returns no response and that
same error, unchanged (so with the oracle's classification), and the run is the `IsRoot`
query alone: `IsAuthorizedNamespace` is not queried and the registry is not called. -/
theorem C8_isroot_failure_propagated (d : deviceAPI M) (ctx : Context)
    (request : apipb.ListDevicesRequest) (account : String)
    (hid : ctx.Value "account_id" = some (.str account))
    (resp : Option IsRootResponse) (e : GoError)
    (hr : d.accountClient.IsRoot ctx ⟨account⟩ = (resp, some e)) :
    d.List ctx request = ⟨.ret none (some e), [.IsRoot ctx ⟨account⟩]⟩ := by
  simp [deviceAPI.List, hid, hr, assertString, assertStringOk]

/-- C8 (amended) at concrete collaborators: an oracle failing with Unavailable. -/
theorem C8_isroot_failure_propagated_witness :
    (deviceAPI.mk (registryOk 1) (oracleFailing (.status .Unavailable "down"))).List
        (ctxOf "u1") ⟨"ns1"⟩
      = ⟨.ret none (some (.status .Unavailable "down")), [.IsRoot (ctxOf "u1") ⟨"u1"⟩]⟩ :=
  C8_isroot_failure_propagated
    (deviceAPI.mk (registryOk 1) (oracleFailing (.status .Unavailable "down")))
    (ctxOf "u1") ⟨"ns1"⟩ "u1" rfl none (.status .Unavailable "down") rfl

/-! ## The permission query -/

/-- C9: for a caller with an identity `account`, the oracle queries of a run are exactly:
in Get, one `IsAuthorized` with (Node = request.Id, Account = account, Action = READ); in
Delete, one `IsAuthorized` with (request.Id, account, WRITE); in List for a caller that
`IsRoot` answers "not root", the `IsRoot` query about `account` and then one
`IsAuthorizedNamespace` with (Namespaceid = request.Namespace, Account = account,
Action = READ).  Each is made with the inbound context. -/
theorem C9_permission_query (d : deviceAPI M) (ctx : Context) (account : String)
    (hid : ctx.Value "account_id" = some (.str account)) :
    (∀ request : GetRequest,
      (d.Get ctx request).oracleCalls = [.IsAuthorized ctx ⟨request.Id, account, .READ⟩]) ∧
    (∀ request : DeleteRequest,
      (d.Delete ctx request).oracleCalls
        = [.IsAuthorized ctx ⟨request.Id, account, .WRITE⟩]) ∧
    (∀ request : apipb.ListDevicesRequest,
      d.accountClient.IsRoot ctx ⟨account⟩ = (some ⟨false⟩, none) →
      (d.List ctx request).oracleCalls
        = [.IsRoot ctx ⟨account⟩,
           .IsAuthorizedNamespace ctx ⟨request.Namespace, account, .READ⟩]) := by
  refine ⟨?_, ?_, ?_⟩
  · intro request
    rcases hq : d.accountClient.IsAuthorized ctx ⟨request.Id, account, .READ⟩
      with ⟨_ | ⟨_ | ⟨_ | _⟩⟩, _ | e⟩ <;>
    simp [deviceAPI.Get, hid, hq, assertString, assertStringOk, BoolValue.GetValue,
      IsAuthorizedResponse.GetDecision, Run.oracleCalls, Call.isRegistry]
  · intro request
    rcases hq : d.accountClient.IsAuthorized ctx ⟨request.Id, account, .WRITE⟩
      with ⟨_ | ⟨_ | ⟨_ | _⟩⟩, _ | e⟩ <;>
    simp [deviceAPI.Delete, hid, hq, assertString, assertStringOk, BoolValue.GetValue,
      IsAuthorizedResponse.GetDecision, Run.oracleCalls, Call.isRegistry]
  · intro request hr
    rcases hq : d.accountClient.IsAuthorizedNamespace ctx ⟨request.Namespace, account, .READ⟩
      with ⟨_ | ⟨_ | ⟨_ | _⟩⟩, _ | e⟩ <;>
    simp [deviceAPI.List, hid, hr, hq, assertString, assertStringOk, BoolValue.GetValue,
      IsAuthorizedNamespaceResponse.GetDecision, Run.oracleCalls, Call.isRegistry]

/-- C9 at concrete collaborators: the caller `u2`, the device `d1`, the namespace `ns1`. -/
theorem C9_permission_query_witness :
    ((deviceAPI.mk (registryOk 1) (oracleConst false (some ⟨true⟩))).Get
        (ctxOf "u2") ⟨"d1"⟩).oracleCalls
      = [.IsAuthorized (ctxOf "u2") ⟨"d1", "u2", .READ⟩] ∧
    ((deviceAPI.mk (registryOk 1) (oracleConst false (some ⟨true⟩))).Delete
        (ctxOf "u2") ⟨"d1"⟩).oracleCalls
      = [.IsAuthorized (ctxOf "u2") ⟨"d1", "u2", .WRITE⟩] ∧
    ((deviceAPI.mk (registryOk 1) (oracleConst false (some ⟨true⟩))).List
        (ctxOf "u2") ⟨"ns1"⟩).oracleCalls
      = [.IsRoot (ctxOf "u2") ⟨"u2"⟩,
         .IsAuthorizedNamespace (ctxOf "u2") ⟨"ns1", "u2", .READ⟩] :=
  ⟨(C9_permission_query (deviceAPI.mk (registryOk 1) (oracleConst false (some ⟨true⟩)))
      (ctxOf "u2") "u2" rfl).1 ⟨"d1"⟩,
   (C9_permission_query (deviceAPI.mk (registryOk 1) (oracleConst false (some ⟨true⟩)))
      (ctxOf "u2") "u2" rfl).2.1 ⟨"d1"⟩,
   (C9_permission_query (deviceAPI.mk (registryOk 1) (oracleConst false (some ⟨true⟩)))
      (ctxOf "u2") "u2" rfl).2.2 ⟨"ns1"⟩ rfl⟩

/-! ## Registry success -/

/-- C10: in each of the five handlers, whenever the run holds a registry call (`Create`,
`Update`, `Get`, `List`, `ListForAccount`, `Delete`) and that call returns the response
`r` with no error, the handler returns `r` with no error. -/
theorem C10_registry_success_returned (d : deviceAPI M) (ctx : Context) :
    (∀ request cx rq r, Call.Create cx rq ∈ (d.Create ctx request).calls →
      d.client.Create cx rq = (r, none) → (d.Create ctx request).outcome = .ret r none) ∧
    (∀ request cx rq r, Call.Update cx rq ∈ (d.Update ctx request).calls →
      d.client.Update cx rq = (r, none) → (d.Update ctx request).outcome = .ret r none) ∧
    (∀ request cx rq r, Call.Get cx rq ∈ (d.Get ctx request).calls →
      d.client.Get cx rq = (r, none) → (d.Get ctx request).outcome = .ret r none) ∧
    (∀ request cx rq r, Call.List cx rq ∈ (d.List ctx request).calls →
      d.client.List cx rq = (r, none) → (d.List ctx request).outcome = .ret r none) ∧
    (∀ request cx rq r, Call.ListForAccount cx rq ∈ (d.List ctx request).calls →
      d.client.ListForAccount cx rq = (r, none) →
      (d.List ctx request).outcome = .ret r none) ∧
    (∀ request cx rq r, Call.Delete cx rq ∈ (d.Delete ctx request).calls →
      d.client.Delete cx rq = (r, none) → (d.Delete ctx request).outcome = .ret r none) := by
  refine ⟨?_, ?_, ?_, ?_, ?_, ?_⟩ <;> intro request cx rq r hmem hq
  · rw [(create_update_outcome d ctx).1 request cx rq hmem, hq]
  · rw [(create_update_outcome d ctx).2 request cx rq hmem, hq]
  · rw [(registry_pair_returned d ctx).1 request cx rq hmem, hq]
  · rw [(registry_pair_returned d ctx).2.1 request cx rq hmem, hq]
  · rw [(registry_pair_returned d ctx).2.2.1 request cx rq hmem, hq]
  · rw [(registry_pair_returned d ctx).2.2.2 request cx rq hmem, hq]

/-- C10 at concrete collaborators, every registry method answering 5: Create for `u2`;
Delete of `d1` once `u2` is granted WRITE; List of `ns1` for the root `root-1`. -/
theorem C10_registry_success_returned_witness :
    ((deviceAPI.mk (registryOk 5) (oracleConst false (some ⟨true⟩))).Create
        (ctxOf "u2") 7).outcome = .ret (some 5) none ∧
    ((deviceAPI.mk (registryOk 5) (oracleConst false (some ⟨true⟩))).Delete
        (ctxOf "u2") ⟨"d1"⟩).outcome = .ret (some 5) none ∧
    ((deviceAPI.mk (registryOk 5) (oracleConst true none)).List
        (ctxOf "root-1") ⟨"ns1"⟩).outcome = .ret (some 5) none :=
  ⟨(C10_registry_success_returned
      (deviceAPI.mk (registryOk 5) (oracleConst false (some ⟨true⟩))) (ctxOf "u2")).1 7
      (AppendToOutgoingContext (ctxOf "u2") "requestorid" "u2") 7 (some 5)
      (List.mem_singleton.mpr rfl) rfl,
   (C10_registry_success_returned
      (deviceAPI.mk (registryOk 5) (oracleConst false (some ⟨true⟩))) (ctxOf "u2")).2.2.2.2.2
      ⟨"d1"⟩ (ctxOf "u2") ⟨"d1"⟩ (some 5)
      (List.mem_cons_of_mem _ (List.mem_singleton.mpr rfl)) rfl,
   (C10_registry_success_returned
      (deviceAPI.mk (registryOk 5) (oracleConst true none)) (ctxOf "root-1")).2.2.2.1
      ⟨"ns1"⟩ (ctxOf "root-1") ⟨"ns1", ""⟩ (some 5)
      (List.mem_cons_of_mem _ (List.mem_singleton.mpr rfl)) rfl⟩

end Infinimesh
